/-
Verification of the Campus Access Management System backend
(FastAPI + SQLAlchemy application).

Shallow embedding of the reservation admission engine
(`app/routers/reservations.py`), the access decision engine
(`app/routers/access_logs.py`) and the card status update endpoint
(`app/routers/access_cards.py`), together with the relevant parts of the
data model (`app/models/database_models.py`, `app/models/schemas.py`).

Modelling conventions:
* `datetime` values are modelled as `Int` (only their linear order matters);
* uuid4 primary keys are modelled by a fresh-id counter `nextId` in the
  store (the only property the code relies on is freshness);
* a database session is modelled by an explicit `DB` record; a query
  `.filter(...).first()` becomes `List.find?`, `.filter(...).all()` becomes
  `List.filter`, `db.add` appends to the table list;
* a FastAPI handler is a function `DB → ... → Except Err ...`; raising an
  `HTTPException` is returning `.error`; Pydantic body validation (which
  FastAPI runs before the handler body) is embedded as explicit checks at
  the start of the corresponding function.
-/
import Mathlib

namespace CampusAccess

/-- `CardStatus` enum from `database_models.py` / `CardStatusEnum` from
`schemas.py`: {active, lost, disabled}. -/
inductive CardStatus where
  | active
  | lost
  | disabled
deriving DecidableEq, Repr

/-- `AccessType` enum from `database_models.py` / `AccessTypeEnum` from
`schemas.py`: {entry, exit, denied}. -/
inductive AccessType where
  | entry
  | exit
  | denied
deriving DecidableEq, Repr

/-- `Room` ORM model: name, location, capacity (capacity > 0 is enforced by
the `RoomCreate` schema and a SQL check constraint at write time). -/
structure Room where
  id : Nat
  name : String
  location : String
  capacity : Nat
deriving DecidableEq, Repr

/-- `User` ORM model (only the fields the engines read). -/
structure User where
  id : Nat
  email : String
deriving DecidableEq, Repr

/-- `RoomReservation` ORM model. -/
structure Reservation where
  id : Nat
  room_id : Nat
  reserved_by : Nat
  start_time : Int
  end_time : Int
  expected_occupants : Nat
deriving DecidableEq, Repr

/-- `AccessCard` ORM model. -/
structure AccessCard where
  id : Nat
  user_id : Nat
  card_number : String
  status : CardStatus
  issued_at : Int
deriving DecidableEq, Repr

/-- `AccessLog` row as persisted. `card_id` is nullable (`ondelete="SET
NULL"`). The `granted` boolean column is added to the `access_logs` table by
`app/database/migrations.py` (`add_granted_column_to_access_logs`); the ORM
attribute itself lives in the `app/models/database_models.py` revision that
the routers import, which is absent from this source snapshot, so the field
is modelled from the spec: `granted (boolean, derived)`. -/
structure AccessLog where
  id : Nat
  card_id : Option Nat
  accessed_at : Int
  location : String
  access_type : AccessType
  granted : Bool
deriving DecidableEq, Repr

/-- The relational store: one list per table, plus the fresh-id counter
standing in for uuid4 generation. -/
structure DB where
  rooms : List Room
  users : List User
  reservations : List Reservation
  cards : List AccessCard
  logs : List AccessLog
  nextId : Nat
deriving DecidableEq, Repr

/-- Error outcomes of the handlers. Constructors record which `raise` (or
Pydantic validation failure) produced them. -/
inductive Err where
  /-- 422: Pydantic validator `end_time_must_be_after_start_time`. -/
  | validationRange
  /-- 422: Pydantic `Field(gt=0)` on `expected_occupants`. -/
  | validationOccupants
  /-- 404 "Room not found". -/
  | roomNotFound
  /-- 404 "User not found". -/
  | userNotFound
  /-- 404 "Reservation not found". -/
  | reservationNotFound
  /-- 404 "Access card not found". -/
  | cardNotFound
  /-- 400 "Expected occupants (...) exceed room capacity (...)". -/
  | capacityExceeded
  /-- 400 "Time conflict: Room is already reserved for this time period". -/
  | timeConflict
  /-- 400 "Start time must be before end time" (handler-level check). -/
  | invalidTimeRange
  /-- 400 "Invalid access type. Must be one of: entry, exit, denied". -/
  | invalidAccessType
  /-- Unhandled `AttributeError` escaping the handler (generic 500). -/
  | attributeError
deriving DecidableEq, Repr

/-- `db.query(Room).filter(Room.id == rid).first()`. -/
def findRoom (db : DB) (rid : Nat) : Option Room :=
  db.rooms.find? (fun r => r.id == rid)

/-- `db.query(User).filter(User.id == uid).first()`. -/
def findUser (db : DB) (uid : Nat) : Option User :=
  db.users.find? (fun u => u.id == uid)

/-- `db.query(RoomReservation).filter(RoomReservation.id == rid).first()`. -/
def findReservation (db : DB) (rid : Nat) : Option Reservation :=
  db.reservations.find? (fun r => r.id == rid)

/-- `db.query(AccessCard).filter(AccessCard.id == cid).first()`. -/
def findCardById (db : DB) (cid : Nat) : Option AccessCard :=
  db.cards.find? (fun c => c.id == cid)

/-- `db.query(AccessCard).filter(AccessCard.card_number == n).first()`. -/
def findCardByNumber (db : DB) (n : String) : Option AccessCard :=
  db.cards.find? (fun c => c.card_number == n)

/-- The SQL overlap filter used by `create_reservation`,
`check_room_availability` and `update_reservation`:
`RoomReservation.room_id == roomId AND RoomReservation.start_time < e AND
RoomReservation.end_time > s`. -/
def overlapsWindow (roomId : Nat) (s e : Int) (r : Reservation) : Bool :=
  r.room_id == roomId && decide (r.start_time < e) && decide (s < r.end_time)

/-- Request body `RoomReservationCreate` from `schemas.py`. -/
structure ReservationCreate where
  room_id : Nat
  start_time : Int
  end_time : Int
  expected_occupants : Nat
  reserved_by : Nat
deriving DecidableEq, Repr

/-- `POST /reservations` — `create_reservation` in
`app/routers/reservations.py`. The two leading checks embed the Pydantic
validation of `RoomReservationCreate` (`Field(gt=0)` on occupants, the
`end_time_must_be_after_start_time` validator), which FastAPI runs before
the handler body; then the handler checks room, user, capacity and the
overlap filter, in the source's order, and finally appends the new row. -/
def createReservation (db : DB) (p : ReservationCreate) : Except Err DB :=
  if p.expected_occupants = 0 then
    .error .validationOccupants
  else if p.end_time ≤ p.start_time then
    .error .validationRange
  else
    match findRoom db p.room_id with
    | none => .error .roomNotFound
    | some room =>
      match findUser db p.reserved_by with
      | none => .error .userNotFound
      | some _ =>
        if room.capacity < p.expected_occupants then
          .error .capacityExceeded
        else if db.reservations.any
            (overlapsWindow p.room_id p.start_time p.end_time) then
          .error .timeConflict
        else
          .ok { db with
                reservations := db.reservations ++
                  [{ id := db.nextId
                     room_id := p.room_id
                     reserved_by := p.reserved_by
                     start_time := p.start_time
                     end_time := p.end_time
                     expected_occupants := p.expected_occupants }]
                nextId := db.nextId + 1 }

/-- Request body `RoomReservationUpdate` from `schemas.py`: all fields
optional (`exclude_unset` semantics: `none` = field absent). It has no
`room_id` field, so an update can never move a reservation to another
room. -/
structure ReservationUpdate where
  start_time : Option Int
  end_time : Option Int
  expected_occupants : Option Nat
deriving DecidableEq, Repr

/-- The `setattr` loop over `reservation_data.dict(exclude_unset=True)`:
fields present in the payload are written, absent ones keep their previous
values. -/
def setFields (r : Reservation) (p : ReservationUpdate) : Reservation :=
  { r with
    start_time := p.start_time.getD r.start_time
    end_time := p.end_time.getD r.end_time
    expected_occupants := p.expected_occupants.getD r.expected_occupants }

/-- Mutating the single ORM instance returned by `.first()`: replace the
first list entry whose id matches. -/
def updateFirst (rid : Nat) (p : ReservationUpdate) :
    List Reservation → List Reservation
  | [] => []
  | r :: rs =>
    if r.id = rid then setFields r p :: rs else r :: updateFirst rid p rs

/-- `db.delete` of the instance returned by `.first()`: remove the first
list entry whose id matches. -/
def deleteFirst (rid : Nat) : List Reservation → List Reservation
  | [] => []
  | r :: rs => if r.id = rid then rs else r :: deleteFirst rid rs

/-- `PUT /reservations/{id}` — `update_reservation`. The occupants check
embeds the `Field(gt=0)` validation of `RoomReservationUpdate`. The range
and overlap checks run only when `start_time` or `end_time` is supplied
(`if reservation_data.start_time or reservation_data.end_time`); the
overlap filter excludes the reservation's own id
(`RoomReservation.id != reservation_id`). No capacity check is performed
here. -/
def updateReservation (db : DB) (rid : Nat) (p : ReservationUpdate) :
    Except Err DB :=
  if p.expected_occupants = some 0 then
    .error .validationOccupants
  else
    match findReservation db rid with
    | none => .error .reservationNotFound
    | some r =>
      if p.start_time.isSome || p.end_time.isSome then
        let s := p.start_time.getD r.start_time
        let e := p.end_time.getD r.end_time
        if e ≤ s then
          .error .invalidTimeRange
        else if db.reservations.any
            (fun o => o.id != rid && overlapsWindow r.room_id s e o) then
          .error .timeConflict
        else
          .ok { db with reservations := updateFirst rid p db.reservations }
      else
        .ok { db with reservations := updateFirst rid p db.reservations }

/-- `DELETE /reservations/{id}` — `delete_reservation`. -/
def deleteReservation (db : DB) (rid : Nat) : Except Err DB :=
  match findReservation db rid with
  | none => .error .reservationNotFound
  | some _ => .ok { db with reservations := deleteFirst rid db.reservations }

/-- `GET /reservations/room/{room_id}/availability` —
`check_room_availability`. Returns the `is_available` boolean and the
`conflicting_reservations` list (the response's echo fields `room_id`,
`room_name`, window, and the 4-field projection of each conflicting row are
omitted: the full rows are returned instead). -/
def checkRoomAvailability (db : DB) (roomId : Nat) (s e : Int) :
    Except Err (Bool × List Reservation) :=
  if s ≥ e then
    .error .invalidTimeRange
  else
    match findRoom db roomId with
    | none => .error .roomNotFound
    | some _ =>
      let conflicting := db.reservations.filter (overlapsWindow roomId s e)
      .ok (conflicting.length == 0, conflicting)

/-- One client-visible reservation operation. -/
inductive ResOp where
  | create (p : ReservationCreate)
  | update (rid : Nat) (p : ReservationUpdate)
  | delete (rid : Nat)
deriving Repr

/-- Executing one operation against the store: a rejected operation raises
before any write, so it leaves the store unchanged. -/
def stepRes (db : DB) : ResOp → DB
  | .create p =>
    match createReservation db p with
    | .ok db' => db'
    | .error _ => db
  | .update rid p =>
    match updateReservation db rid p with
    | .ok db' => db'
    | .error _ => db
  | .delete rid =>
    match deleteReservation db rid with
    | .ok db' => db'
    | .error _ => db

/-- Executing a sequence of reservation operations. -/
def runRes (db : DB) (ops : List ResOp) : DB :=
  ops.foldl stepRes db

/-- A store with the given rooms, users and cards and no reservations or
logs. -/
def initDB (rooms : List Room) (users : List User) (cards : List AccessCard)
    (nextId : Nat) : DB :=
  { rooms := rooms, users := users, reservations := [], cards := cards,
    logs := [], nextId := nextId }

-- sanity checks on concrete runs
def egRoom : Room := { id := 1, name := "A", location := "B1", capacity := 30 }
def egUser : User := { id := 2, email := "u@x" }
def egDB : DB := initDB [egRoom] [egUser] [] 10

example :
    createReservation egDB
      { room_id := 1, start_time := 10, end_time := 11,
        expected_occupants := 3, reserved_by := 2 } =
    .ok { egDB with
          reservations := [{ id := 10, room_id := 1, reserved_by := 2,
                             start_time := 10, end_time := 11,
                             expected_occupants := 3 }]
          nextId := 11 } := rfl

example :
    (runRes egDB
      [ .create { room_id := 1, start_time := 10, end_time := 11,
                  expected_occupants := 3, reserved_by := 2 },
        .create { room_id := 1, start_time := 10, end_time := 11,
                  expected_occupants := 3, reserved_by := 2 } ]).reservations.length
      = 1 := by decide

example :
    createReservation egDB
      { room_id := 99, start_time := 5, end_time := 3,
        expected_occupants := 3, reserved_by := 2 } =
    .error .validationRange := rfl

/-- Parsing of the raw `access_type` query string in `simulate_access`:
`valid_access_types = ["entry", "exit", "denied"]`. -/
def parseAccessType (s : String) : Option AccessType :=
  if s = "entry" then some .entry
  else if s = "exit" then some .exit
  else if s = "denied" then some .denied
  else none

/-- Parsing of the `status` query string in `update_card_status`:
`valid_statuses = ["active", "lost", "disabled"]`. -/
def parseCardStatus (s : String) : Option CardStatus :=
  if s = "active" then some .active
  else if s = "lost" then some .lost
  else if s = "disabled" then some .disabled
  else none

/-- Request body `AccessLogCreate` from `schemas.py`. It requires a
`granted` boolean from the caller, but `create_access_log` ignores it and
recomputes `granted` itself. -/
structure AccessLogCreate where
  card_id : Nat
  location : String
  access_type : AccessType
  granted : Bool
deriving DecidableEq, Repr

/-- `POST /access-logs/` — `create_access_log` in
`app/routers/access_logs.py`: look the card up by id (404 if absent), then
persist the log with the *requested* access type as-is (no card-status
gate) and `granted = log_data.access_type != "denied"`. `accessed_at`
defaults to `func.now()`, passed in as `now`. -/
def createAccessLog (db : DB) (p : AccessLogCreate) (now : Int) :
    Except Err (AccessLog × DB) :=
  match findCardById db p.card_id with
  | none => .error .cardNotFound
  | some _ =>
    let granted := p.access_type != AccessType.denied
    let log : AccessLog :=
      { id := db.nextId, card_id := some p.card_id, accessed_at := now,
        location := p.location, access_type := p.access_type,
        granted := granted }
    .ok (log, { db with logs := db.logs ++ [log], nextId := db.nextId + 1 })

/-- `POST /access-logs/simulate-access` — `simulate_access`: validate the
raw access type (400 if not in the list), look the card up by card number
(404 if absent), force the type to `denied` when `card.status != "active"`,
set `granted = access_type != "denied"`, and persist exactly one log row. -/
def simulateAccess (db : DB) (card_number location access_type : String)
    (now : Int) : Except Err (AccessLog × DB) :=
  match parseAccessType access_type with
  | none => .error .invalidAccessType
  | some requested =>
    match findCardByNumber db card_number with
    | none => .error .cardNotFound
    | some card =>
      let effective :=
        if card.status ≠ CardStatus.active then AccessType.denied
        else requested
      let granted := effective != AccessType.denied
      let log : AccessLog :=
        { id := db.nextId, card_id := some card.id, accessed_at := now,
          location := location, access_type := effective,
          granted := granted }
      .ok (log,
           { db with logs := db.logs ++ [log], nextId := db.nextId + 1 })

/-- `PUT /access-cards/{card_id}/status` — `update_card_status` in
`app/routers/access_cards.py`. The handler's `status: str` query parameter
shadows the `fastapi.status` module imported at the top of the file, so on
both error paths the expression `status.HTTP_404_NOT_FOUND` (resp.
`status.HTTP_400_BAD_REQUEST`) is an attribute access on a `str` and raises
`AttributeError` before any `HTTPException` is built: the caller sees an
unhandled 500, not a structured 404/400. The success path (card found,
status in the valid list) is unaffected. -/
def updateCardStatus (db : DB) (card_id : Nat) (status : String) :
    Except Err (AccessCard × DB) :=
  match findCardById db card_id with
  | none => .error .attributeError
  | some card =>
    match parseCardStatus status with
    | none => .error .attributeError
    | some st =>
      let card' := { card with status := st }
      .ok (card',
           { db with cards :=
               db.cards.map (fun c => if c.id = card_id then card' else c) })

-- sanity checks for the access side
def egCard : AccessCard :=
  { id := 5, user_id := 2, card_number := "C-1", status := .disabled,
    issued_at := 0 }
def egDB2 : DB := initDB [egRoom] [egUser] [egCard] 10

example :
    (simulateAccess egDB2 "C-1" "Library" "entry" 7).map
      (fun r => (r.1.access_type, r.1.granted)) =
    .ok (.denied, false) := rfl

example :
    (createAccessLog egDB2
      { card_id := 5, location := "Library", access_type := .entry,
        granted := false } 7).map
      (fun r => (r.1.access_type, r.1.granted)) =
    .ok (.entry, true) := rfl

example :
    updateCardStatus egDB2 99 "active" = .error .attributeError := rfl

example :
    updateCardStatus egDB2 5 "frozen" = .error .attributeError := rfl

/-! ### Specification-side predicates for the reservation invariant -/

/-- The overlap relation the code's filter tests, read at the level of two
stored rows: same room and `r₁.start_time < r₂.end_time AND r₂.start_time <
r₁.end_time`. -/
def Overlap (a b : Reservation) : Prop :=
  a.room_id = b.room_id ∧ a.start_time < b.end_time ∧ b.start_time < a.end_time

/-- `t` lies in the half-open interval `[start_time, end_time)` of `r`. -/
def InInterval (r : Reservation) (t : Int) : Prop :=
  r.start_time ≤ t ∧ t < r.end_time

/-- Two stored rows are separated: distinct primary keys and no overlap. -/
def Sep (a b : Reservation) : Prop :=
  a.id ≠ b.id ∧ ¬ Overlap a b

/-- Inductive invariant of the reservation table: rows are pairwise
separated, every row has a nonempty interval, and every primary key is
below the fresh-id counter. -/
def Inv (db : DB) : Prop :=
  db.reservations.Pairwise Sep ∧
  ∀ r ∈ db.reservations, r.start_time < r.end_time ∧ r.id < db.nextId

/-! ### Concrete stores used as witnesses -/

/-- Room of capacity 1, one user, one reservation `[10, 20)` by that user
with 1 occupant. -/
def wDB : DB :=
  { rooms := [{ id := 1, name := "A", location := "B1", capacity := 1 }]
    users := [{ id := 2, email := "u@x" }]
    reservations := [{ id := 3, room_id := 1, reserved_by := 2,
                       start_time := 10, end_time := 20,
                       expected_occupants := 1 }]
    cards := []
    logs := []
    nextId := 4 }

/-- Update payload that only raises `expected_occupants` to 5 (above the
capacity 1 of room 1 in `wDB`). -/
def wUpd : ReservationUpdate :=
  { start_time := none, end_time := none, expected_occupants := some 5 }

/-- Creation payload for a window touching the stored `[10, 20)` at its
right endpoint. -/
def wCreate : ReservationCreate :=
  { room_id := 1, start_time := 20, end_time := 30,
    expected_occupants := 1, reserved_by := 2 }

/-- Creation payload with a nonexistent room and an inverted time range. -/
def wBadCreate : ReservationCreate :=
  { room_id := 99, start_time := 5, end_time := 3,
    expected_occupants := 1, reserved_by := 2 }

/-- One disabled card, for the access-side witnesses. -/
def wAccessDB : DB :=
  { rooms := []
    users := [{ id := 2, email := "u@x" }]
    reservations := []
    cards := [{ id := 5, user_id := 2, card_number := "C-1",
                status := .disabled, issued_at := 0 }]
    logs := []
    nextId := 6 }

/-! ### Helper lemmas -/

theorem setFields_id (r : Reservation) (p : ReservationUpdate) :
    (setFields r p).id = r.id := rfl

theorem setFields_room (r : Reservation) (p : ReservationUpdate) :
    (setFields r p).room_id = r.room_id := rfl

theorem overlap_symm {a b : Reservation} (h : Overlap a b) : Overlap b a :=
  ⟨h.1.symm, h.2.2, h.2.1⟩

/-- A successful `find?` splits the list around the first hit. -/
theorem find?_split {q : Reservation → Bool} {l : List Reservation}
    {r : Reservation} (h : l.find? q = some r) :
    ∃ l₁ l₂, l = l₁ ++ r :: l₂ ∧ (∀ x ∈ l₁, q x = false) ∧ q r = true := by
  induction l with
  | nil => simp at h
  | cons x xs ih =>
    by_cases hx : q x = true
    · rw [List.find?_cons_of_pos _ hx] at h
      cases h
      exact ⟨[], xs, rfl, by simp, hx⟩
    · rw [List.find?_cons_of_neg _ hx] at h
      obtain ⟨l₁, l₂, rfl, h₁, h₂⟩ := ih h
      exact ⟨x :: l₁, l₂, rfl, by
        intro y hy
        rcases List.mem_cons.mp hy with rfl | hy
        · exact Bool.eq_false_iff.mpr hx
        · exact h₁ y hy, h₂⟩

theorem updateFirst_eq {rid : Nat} {p : ReservationUpdate}
    {l₁ l₂ : List Reservation} {r : Reservation}
    (h₁ : ∀ x ∈ l₁, x.id ≠ rid) (hr : r.id = rid) :
    updateFirst rid p (l₁ ++ r :: l₂) = l₁ ++ setFields r p :: l₂ := by
  induction l₁ with
  | nil => simp [updateFirst, hr]
  | cons x xs ih =>
    have hx : x.id ≠ rid := h₁ x (by simp)
    simp only [List.cons_append, updateFirst, if_neg hx, List.append_eq]
    rw [ih (fun y hy => h₁ y (List.mem_cons_of_mem x hy))]

theorem deleteFirst_eq {rid : Nat} {l₁ l₂ : List Reservation}
    {r : Reservation} (h₁ : ∀ x ∈ l₁, x.id ≠ rid) (hr : r.id = rid) :
    deleteFirst rid (l₁ ++ r :: l₂) = l₁ ++ l₂ := by
  induction l₁ with
  | nil => simp [deleteFirst, hr]
  | cons x xs ih =>
    have hx : x.id ≠ rid := h₁ x (by simp)
    simp only [List.cons_append, deleteFirst, if_neg hx, List.append_eq]
    rw [ih (fun y hy => h₁ y (List.mem_cons_of_mem x hy))]

theorem deleteFirst_sublist (rid : Nat) (l : List Reservation) :
    List.Sublist (deleteFirst rid l) l := by
  induction l with
  | nil => simp [deleteFirst]
  | cons x xs ih =>
    rw [deleteFirst]
    split
    · exact List.sublist_cons_self x xs
    · exact ih.cons₂ x

/-- Reading the failed `any` of the overlap filter back as a Prop. -/
theorem of_any_overlap_false {roomId : Nat} {s e : Int}
    {l : List Reservation}
    (h : l.any (overlapsWindow roomId s e) = false) :
    ∀ r ∈ l, ¬(r.room_id = roomId ∧ r.start_time < e ∧ s < r.end_time) := by
  intro r hm hc
  have : l.any (overlapsWindow roomId s e) = true :=
    List.any_eq_true.mpr
      ⟨r, hm, by simp [overlapsWindow, hc.1, hc.2.1, hc.2.2]⟩
  rw [h] at this
  cases this

/-- Reading the failed `any` of the update-path overlap filter (which also
excludes the reservation's own id) back as a Prop. -/
theorem of_any_overlap_ne_false {rid roomId : Nat} {s e : Int}
    {l : List Reservation}
    (h : l.any (fun o => o.id != rid && overlapsWindow roomId s e o)
          = false) :
    ∀ o ∈ l, o.id ≠ rid →
      ¬(o.room_id = roomId ∧ o.start_time < e ∧ s < o.end_time) := by
  intro o hm hne hc
  have : l.any (fun o => o.id != rid && overlapsWindow roomId s e o)
      = true :=
    List.any_eq_true.mpr
      ⟨o, hm, by simp [overlapsWindow, hne, hc.1, hc.2.1, hc.2.2]⟩
  rw [h] at this
  cases this

/-- An accepted `create_reservation` preserves the reservation-table
invariant. -/
theorem inv_create {db : DB} {p : ReservationCreate} {db' : DB}
    (hInv : Inv db) (h : createReservation db p = .ok db') : Inv db' := by
  unfold createReservation at h
  split at h
  · exact Except.noConfusion h
  split at h
  · exact Except.noConfusion h
  next hrange =>
  split at h
  · exact Except.noConfusion h
  next room hroom =>
  split at h
  · exact Except.noConfusion h
  next u huser =>
  split at h
  · exact Except.noConfusion h
  split at h
  · exact Except.noConfusion h
  next hany =>
  cases h
  obtain ⟨hpw, hbnd⟩ := hInv
  have hno := of_any_overlap_false (Bool.of_not_eq_true hany)
  constructor
  · rw [List.pairwise_append]
    refine ⟨hpw, List.pairwise_singleton _ _, ?_⟩
    intro a ha b hb
    rw [List.mem_singleton] at hb
    subst hb
    refine ⟨Nat.ne_of_lt (hbnd a ha).2, ?_⟩
    intro hov
    exact hno a ha ⟨hov.1, hov.2.1, hov.2.2⟩
  · intro r hr
    rw [List.mem_append, List.mem_singleton] at hr
    rcases hr with hr | rfl
    · exact ⟨(hbnd r hr).1, Nat.lt_succ_of_lt (hbnd r hr).2⟩
    · exact ⟨Int.not_le.mp hrange, Nat.lt_succ_self _⟩

/-- Replacing the first row with id `rid` by a row with the same id and
room, a nonempty interval and no overlap with any other-id row preserves
the table invariant. -/
theorem inv_updateFirst {l : List Reservation} {rid : Nat}
    {p : ReservationUpdate} {r : Reservation} {N : Nat}
    (hfind : l.find? (fun x => x.id == rid) = some r)
    (hpw : l.Pairwise Sep)
    (hbnd : ∀ x ∈ l, x.start_time < x.end_time ∧ x.id < N)
    (hgood : (setFields r p).start_time < (setFields r p).end_time)
    (hsep : ∀ o ∈ l, o.id ≠ rid → ¬ Overlap (setFields r p) o) :
    (updateFirst rid p l).Pairwise Sep ∧
    ∀ x ∈ updateFirst rid p l, x.start_time < x.end_time ∧ x.id < N := by
  obtain ⟨l₁, l₂, rfl, hl₁, hqr⟩ := find?_split hfind
  have hrid : r.id = rid := eq_of_beq hqr
  have hl₁' : ∀ x ∈ l₁, x.id ≠ rid := by
    intro x hx
    have := hl₁ x hx
    simpa using this
  rw [updateFirst_eq hl₁' hrid]
  rw [List.pairwise_append] at hpw
  obtain ⟨hp₁, hp₂, hx₁₂⟩ := hpw
  rw [List.pairwise_cons] at hp₂
  obtain ⟨hr₂, hp₂'⟩ := hp₂
  have hmem_r : r ∈ l₁ ++ r :: l₂ := by simp
  constructor
  · rw [List.pairwise_append]
    refine ⟨hp₁, ?_, ?_⟩
    · rw [List.pairwise_cons]
      refine ⟨?_, hp₂'⟩
      intro b hb
      have hsrb := hr₂ b hb
      have hbne : b.id ≠ rid := fun e => hsrb.1 (hrid.trans e.symm)
      refine ⟨by rw [setFields_id]; exact hsrb.1, ?_⟩
      exact hsep b (by simp [hb]) hbne
    · intro a ha b hb
      have hane : a.id ≠ rid := hl₁' a ha
      rcases List.mem_cons.mp hb with rfl | hb
      · have hsar := hx₁₂ a ha r (by simp)
        refine ⟨by rw [setFields_id]; exact hsar.1, ?_⟩
        intro hov
        exact hsep a (by simp [ha]) hane (overlap_symm hov)
      · exact hx₁₂ a ha b (by simp [hb])
  · intro x hx
    rw [List.mem_append, List.mem_cons] at hx
    rcases hx with hx | hx | hx
    · exact hbnd x (by simp [hx])
    · subst hx
      exact ⟨hgood, by rw [setFields_id]; exact (hbnd r hmem_r).2⟩
    · exact hbnd x (by simp [hx])

/-- An accepted `update_reservation` preserves the reservation-table
invariant. -/
theorem inv_update {db : DB} {rid : Nat} {p : ReservationUpdate} {db' : DB}
    (hInv : Inv db) (h : updateReservation db rid p = .ok db') : Inv db' := by
  obtain ⟨hpw, hbnd⟩ := hInv
  unfold updateReservation at h
  split at h
  · exact Except.noConfusion h
  split at h
  · exact Except.noConfusion h
  next r hfind =>
  rw [findReservation] at hfind
  have hmem_r : r ∈ db.reservations := List.mem_of_find?_eq_some hfind
  have hrid : r.id = rid := by
    have := List.find?_some hfind
    exact eq_of_beq this
  split at h
  next hsome =>
    simp only [] at h
    split at h
    · exact Except.noConfusion h
    next hrange =>
    split at h
    · exact Except.noConfusion h
    next hany =>
    cases h
    have hno := of_any_overlap_ne_false (Bool.of_not_eq_true hany)
    refine And.imp id ?_ (inv_updateFirst hfind hpw hbnd ?_ ?_)
    · intro hb
      exact hb
    · exact Int.not_le.mp hrange
    · intro o ho hone hov
      exact hno o ho hone ⟨hov.1.symm, hov.2.2, hov.2.1⟩
  next hnone =>
    have hstart : p.start_time = none := by
      cases hs : p.start_time with
      | none => rfl
      | some v => rw [hs] at hnone; simp at hnone
    have hend : p.end_time = none := by
      cases he : p.end_time with
      | none => rfl
      | some v => rw [he] at hnone; simp at hnone
    cases h
    have hfix : setFields r p = { r with
        expected_occupants := p.expected_occupants.getD r.expected_occupants } := by
      rw [setFields, hstart, hend]
      rfl
    refine And.imp id ?_ (inv_updateFirst hfind hpw hbnd ?_ ?_)
    · intro hb
      exact hb
    · rw [hfix]
      exact (hbnd r hmem_r).1
    · intro o ho hone hov
      rw [hfix] at hov
      obtain ⟨l₁, l₂, hsplit, hl₁, hqr⟩ := find?_split hfind
      rw [hsplit] at ho hpw
      rw [List.pairwise_append] at hpw
      obtain ⟨hp₁, hp₂, hx₁₂⟩ := hpw
      rw [List.pairwise_cons] at hp₂
      rw [List.mem_append, List.mem_cons] at ho
      rcases ho with ho | ho | ho
      · exact (hx₁₂ o ho r (by simp)).2 (overlap_symm hov)
      · subst ho
        exact hone hrid
      · exact (hp₂.1 o ho).2 hov

/-- An accepted `delete_reservation` preserves the reservation-table
invariant. -/
theorem inv_delete {db : DB} {rid : Nat} {db' : DB}
    (hInv : Inv db) (h : deleteReservation db rid = .ok db') : Inv db' := by
  unfold deleteReservation at h
  split at h
  · exact Except.noConfusion h
  cases h
  obtain ⟨hpw, hbnd⟩ := hInv
  have hsub := deleteFirst_sublist rid db.reservations
  exact ⟨hpw.sublist hsub, fun r hr => hbnd r (hsub.mem hr)⟩

/-- One client step preserves the reservation-table invariant (a rejected
request leaves the store unchanged). -/
theorem inv_step (db : DB) (op : ResOp) (hInv : Inv db) :
    Inv (stepRes db op) := by
  cases op with
  | create p =>
    rw [stepRes]
    split
    next h => exact inv_create hInv h
    next h => exact hInv
  | update rid p =>
    rw [stepRes]
    split
    next h => exact inv_update hInv h
    next h => exact hInv
  | delete rid =>
    rw [stepRes]
    split
    next h => exact inv_delete hInv h
    next h => exact hInv

/-- Any run from an invariant store keeps the invariant. -/
theorem inv_run (db : DB) (ops : List ResOp) (hInv : Inv db) :
    Inv (runRes db ops) := by
  induction ops generalizing db with
  | nil => exact hInv
  | cons op ops ih => exact ih (stepRes db op) (inv_step db op hInv)

/-- The empty reservation table satisfies the invariant. -/
theorem inv_init (rooms : List Room) (users : List User)
    (cards : List AccessCard) (n : Nat) :
    Inv (initDB rooms users cards n) := by
  constructor
  · exact List.Pairwise.nil
  · intro r hr
    exact absurd hr (List.not_mem_nil r)

/-! ### Claims -/

/-- **C1** — No-overlap invariant: starting from a store with no
reservations, after any sequence of accepted `create_reservation`,
`update_reservation` and `delete_reservation` operations (rejected requests
write nothing), any two distinct stored reservations for the same room have
disjoint half-open `[start_time, end_time)` intervals: no instant `t` lies
in both. -/
theorem no_overlap_after_any_run (rooms : List Room) (users : List User)
    (cards : List AccessCard) (n : Nat) (ops : List ResOp)
    (i j : Nat) (a b : Reservation) (hij : i ≠ j)
    (ha : (runRes (initDB rooms users cards n) ops).reservations[i]? = some a)
    (hb : (runRes (initDB rooms users cards n) ops).reservations[j]? = some b)
    (hroom : a.room_id = b.room_id) (t : Int) :
    ¬(InInterval a t ∧ InInterval b t) := by
  have hInv := inv_run _ ops (inv_init rooms users cards n)
  have hpw := hInv.1
  rw [List.pairwise_iff_getElem] at hpw
  rw [List.getElem?_eq_some] at ha hb
  obtain ⟨hi, ha⟩ := ha
  obtain ⟨hj, hb⟩ := hb
  rintro ⟨⟨h1, h2⟩, ⟨h3, h4⟩⟩
  rcases Nat.lt_or_ge i j with hlt | hge
  · have hsep := hpw i j hi hj hlt
    rw [ha, hb] at hsep
    exact hsep.2 ⟨hroom, lt_of_le_of_lt h1 h4, lt_of_le_of_lt h3 h2⟩
  · have hlt : j < i := Nat.lt_of_le_of_ne hge (fun e => hij e.symm)
    have hsep := hpw j i hj hi hlt
    rw [ha, hb] at hsep
    exact hsep.2 ⟨hroom.symm, lt_of_le_of_lt h3 h2, lt_of_le_of_lt h1 h4⟩

/-- Witness for C1: two accepted back-to-back reservations `[10,20)` and
`[20,30)` in room 1 share no instant (checked at `t = 15`). -/
theorem no_overlap_after_any_run_witness :
    ¬(InInterval { id := 0, room_id := 1, reserved_by := 2,
                   start_time := 10, end_time := 20,
                   expected_occupants := 1 } 15 ∧
      InInterval { id := 1, room_id := 1, reserved_by := 2,
                   start_time := 20, end_time := 30,
                   expected_occupants := 1 } 15) :=
  no_overlap_after_any_run
    [{ id := 1, name := "A", location := "B1", capacity := 1 }]
    [{ id := 2, email := "u@x" }] [] 0
    [ .create { room_id := 1, start_time := 10, end_time := 20,
                expected_occupants := 1, reserved_by := 2 },
      .create { room_id := 1, start_time := 20, end_time := 30,
                expected_occupants := 1, reserved_by := 2 } ]
    0 1 _ _ (by decide) (by decide) (by decide) (by decide) 15

/-- **C2** — Access decision contract: for a valid `access_type` and an
existing card, the persisted log's type is `denied` whenever the card is not
active and the requested type otherwise, its `granted` flag equals
(effective type ≠ denied), and exactly one new `AccessLog` row is appended
(also for denied attempts). -/
theorem simulate_access_decision (db : DB)
    (card_number location raw : String) (now : Int) (ty : AccessType)
    (c : AccessCard) (hty : parseAccessType raw = some ty)
    (hc : findCardByNumber db card_number = some c) :
    ∃ log db',
      simulateAccess db card_number location raw now = .ok (log, db') ∧
      log.access_type =
        (if c.status ≠ CardStatus.active then AccessType.denied else ty) ∧
      (log.granted = true ↔ log.access_type ≠ AccessType.denied) ∧
      db'.logs = db.logs ++ [log] ∧
      db'.logs.length = db.logs.length + 1 := by
  unfold simulateAccess
  rw [hty, hc]
  refine ⟨_, _, rfl, rfl, ?_, rfl, by simp⟩
  simp only [bne_iff_ne]

/-- Witness for C2: a disabled card asking for `entry` is logged as
`denied`, not granted, and the log count grows by one. -/
theorem simulate_access_decision_witness :
    ∃ log db',
      simulateAccess wAccessDB "C-1" "Library" "entry" 7 = .ok (log, db') ∧
      log.access_type =
        (if CardStatus.disabled ≠ CardStatus.active then AccessType.denied
         else AccessType.entry) ∧
      (log.granted = true ↔ log.access_type ≠ AccessType.denied) ∧
      db'.logs = wAccessDB.logs ++ [log] ∧
      db'.logs.length = wAccessDB.logs.length + 1 :=
  simulate_access_decision wAccessDB "C-1" "Library" "entry" 7 .entry
    { id := 5, user_id := 2, card_number := "C-1", status := .disabled,
      issued_at := 0 } rfl rfl

/-- **C6** — Persisted granted flag: every `AccessLog` row appended by
either log-creation path carries `granted = true` exactly when its
`access_type` is not `denied`. -/
theorem granted_iff_not_denied (db : DB) :
    (∀ (p : AccessLogCreate) (now : Int) (log : AccessLog) (db' : DB),
        createAccessLog db p now = .ok (log, db') →
        db'.logs = db.logs ++ [log] ∧
        (log.granted = true ↔ log.access_type ≠ AccessType.denied)) ∧
    (∀ (cn loc raw : String) (now : Int) (log : AccessLog) (db' : DB),
        simulateAccess db cn loc raw now = .ok (log, db') →
        db'.logs = db.logs ++ [log] ∧
        (log.granted = true ↔ log.access_type ≠ AccessType.denied)) := by
  constructor
  · intro p now log db' h
    unfold createAccessLog at h
    split at h
    · exact Except.noConfusion h
    cases h
    exact ⟨rfl, by simp only [bne_iff_ne]⟩
  · intro cn loc raw now log db' h
    unfold simulateAccess at h
    split at h
    · exact Except.noConfusion h
    split at h
    · exact Except.noConfusion h
    cases h
    exact ⟨rfl, by simp only [bne_iff_ne]⟩

/-- Witness for C6: the direct path, asked to log an `entry` with a payload
claiming `granted = false`, still persists `granted = true`. -/
theorem granted_iff_not_denied_witness :
    { rooms := ([] : List Room), users := [{ id := 2, email := "u@x" }]
      reservations := ([] : List Reservation)
      cards := [{ id := 5, user_id := 2, card_number := "C-1",
                  status := CardStatus.disabled, issued_at := 0 }]
      logs := [{ id := 6, card_id := some 5, accessed_at := 7,
                 location := "Gate", access_type := AccessType.entry,
                 granted := true }]
      nextId := 7 : DB }.logs = wAccessDB.logs ++
        [{ id := 6, card_id := some 5, accessed_at := 7,
           location := "Gate", access_type := AccessType.entry,
           granted := true }] ∧
    ({ id := 6, card_id := some 5, accessed_at := 7, location := "Gate",
       access_type := AccessType.entry,
       granted := true : AccessLog }.granted = true ↔
     ({ id := 6, card_id := some 5, accessed_at := 7, location := "Gate",
        access_type := AccessType.entry,
        granted := true : AccessLog }).access_type ≠ AccessType.denied) :=
  (granted_iff_not_denied wAccessDB).1
    { card_id := 5, location := "Gate", access_type := .entry,
      granted := false } 7 _ _ rfl

/-- **C8** — Ungated direct log path: `create_access_log` fails with
NotFound for an unknown card id, and for an existing card it persists the
*requested* type as-is (no card-status override) with
`granted = (requested ≠ denied)`. -/
theorem create_access_log_ungated (db : DB) (p : AccessLogCreate)
    (now : Int) :
    (findCardById db p.card_id = none →
        createAccessLog db p now = .error .cardNotFound) ∧
    (∀ c, findCardById db p.card_id = some c →
        ∃ log db',
          createAccessLog db p now = .ok (log, db') ∧
          log.access_type = p.access_type ∧
          log.granted = (p.access_type != AccessType.denied) ∧
          db'.logs = db.logs ++ [log]) := by
  constructor
  · intro h
    unfold createAccessLog
    rw [h]
  · intro c hc
    unfold createAccessLog
    rw [hc]
    exact ⟨_, _, rfl, rfl, rfl, rfl⟩

/-- Witness for C8: a disabled card's id still gets an `entry` log with
`granted = true` on the direct path (the status gate is bypassed). -/
theorem create_access_log_ungated_witness :
    ∃ log db',
      createAccessLog wAccessDB
        { card_id := 5, location := "Gate", access_type := .entry,
          granted := false } 7 = .ok (log, db') ∧
      log.access_type = AccessType.entry ∧
      log.granted = (AccessType.entry != AccessType.denied) ∧
      db'.logs = wAccessDB.logs ++ [log] :=
  (create_access_log_ungated wAccessDB
      { card_id := 5, location := "Gate", access_type := .entry,
        granted := false } 7).2
    { id := 5, user_id := 2, card_number := "C-1",
      status := .disabled, issued_at := 0 } rfl

/-- **C10** — Frame property of `simulate_access`: only the log table (and
the fresh-id counter) change; the stored cards, rooms, reservations and
users are untouched even when the status override forces `denied`. -/
theorem simulate_access_frame (db : DB) (card_number location raw : String)
    (now : Int) :
    ∀ log db', simulateAccess db card_number location raw now = .ok (log, db') →
      db'.cards = db.cards ∧ db'.rooms = db.rooms ∧
      db'.reservations = db.reservations ∧ db'.users = db.users ∧
      db'.logs = db.logs ++ [log] := by
  intro log db' h
  unfold simulateAccess at h
  split at h
  · exact Except.noConfusion h
  split at h
  · exact Except.noConfusion h
  cases h
  exact ⟨rfl, rfl, rfl, rfl, rfl⟩

/-- Witness for C10: the denied-override call on the disabled card leaves
every non-log table of `wAccessDB` unchanged. -/
theorem simulate_access_frame_witness :
    { rooms := ([] : List Room), users := [{ id := 2, email := "u@x" }]
      reservations := ([] : List Reservation)
      cards := [{ id := 5, user_id := 2, card_number := "C-1",
                  status := CardStatus.disabled, issued_at := 0 }]
      logs := [{ id := 6, card_id := some 5, accessed_at := 7,
                 location := "Library", access_type := AccessType.denied,
                 granted := false }]
      nextId := 7 : DB }.cards = wAccessDB.cards ∧
    ({ rooms := ([] : List Room), users := [{ id := 2, email := "u@x" }]
       reservations := ([] : List Reservation)
       cards := [{ id := 5, user_id := 2, card_number := "C-1",
                   status := CardStatus.disabled, issued_at := 0 }]
       logs := [{ id := 6, card_id := some 5, accessed_at := 7,
                  location := "Library", access_type := AccessType.denied,
                  granted := false }]
       nextId := 7 : DB }).rooms = wAccessDB.rooms ∧
    ({ rooms := ([] : List Room), users := [{ id := 2, email := "u@x" }]
       reservations := ([] : List Reservation)
       cards := [{ id := 5, user_id := 2, card_number := "C-1",
                   status := CardStatus.disabled, issued_at := 0 }]
       logs := [{ id := 6, card_id := some 5, accessed_at := 7,
                  location := "Library", access_type := AccessType.denied,
                  granted := false }]
       nextId := 7 : DB }).reservations = wAccessDB.reservations ∧
    ({ rooms := ([] : List Room), users := [{ id := 2, email := "u@x" }]
       reservations := ([] : List Reservation)
       cards := [{ id := 5, user_id := 2, card_number := "C-1",
                   status := CardStatus.disabled, issued_at := 0 }]
       logs := [{ id := 6, card_id := some 5, accessed_at := 7,
                  location := "Library", access_type := AccessType.denied,
                  granted := false }]
       nextId := 7 : DB }).users = wAccessDB.users ∧
    ({ rooms := ([] : List Room), users := [{ id := 2, email := "u@x" }]
       reservations := ([] : List Reservation)
       cards := [{ id := 5, user_id := 2, card_number := "C-1",
                   status := CardStatus.disabled, issued_at := 0 }]
       logs := [{ id := 6, card_id := some 5, accessed_at := 7,
                  location := "Library", access_type := AccessType.denied,
                  granted := false }]
       nextId := 7 : DB }).logs = wAccessDB.logs ++
        [{ id := 6, card_id := some 5, accessed_at := 7,
           location := "Library", access_type := AccessType.denied,
           granted := false }] :=
  simulate_access_frame wAccessDB "C-1" "Library" "entry" 7
    { id := 6, card_id := some 5, accessed_at := 7, location := "Library",
      access_type := AccessType.denied, granted := false } _ rfl

/-- The create/availability overlap `any` as a Prop. -/
theorem any_overlap_iff (roomId : Nat) (s e : Int) (l : List Reservation) :
    l.any (overlapsWindow roomId s e) = true ↔
      ∃ r ∈ l, r.room_id = roomId ∧ r.start_time < e ∧ s < r.end_time := by
  simp [List.any_eq_true, overlapsWindow, Bool.and_eq_true, beq_iff_eq,
        decide_eq_true_eq, and_assoc]

/-- The update-path overlap `any` (own id excluded) as a Prop. -/
theorem any_overlap_ne_iff (rid roomId : Nat) (s e : Int)
    (l : List Reservation) :
    l.any (fun o => o.id != rid && overlapsWindow roomId s e o) = true ↔
      ∃ o ∈ l, o.id ≠ rid ∧ o.room_id = roomId ∧
        o.start_time < e ∧ s < o.end_time := by
  simp [List.any_eq_true, overlapsWindow, Bool.and_eq_true, beq_iff_eq,
        decide_eq_true_eq, bne_iff_ne, and_assoc]

/-- **C3** — Overlap predicate: with room and user existing, a valid range
and occupants within capacity, `create_reservation` rejects with Conflict
exactly when some stored reservation `r` of the room satisfies
`r.start_time < end_time ∧ start_time < r.end_time` (so touching endpoints
are accepted), and the availability query is the read-only variant:
`is_available` is true iff no stored reservation of the room satisfies the
predicate, and `conflicting_reservations` contains exactly those that do. -/
theorem conflict_iff_overlap (db : DB) (p : ReservationCreate) (room : Room)
    (u : User) (hroom : findRoom db p.room_id = some room)
    (huser : findUser db p.reserved_by = some u)
    (hocc : 0 < p.expected_occupants)
    (hcap : p.expected_occupants ≤ room.capacity)
    (hrange : p.start_time < p.end_time) :
    (createReservation db p = .error .timeConflict ↔
      ∃ r ∈ db.reservations, r.room_id = p.room_id ∧
        r.start_time < p.end_time ∧ p.start_time < r.end_time) ∧
    ((createReservation db p).isOk = true ↔
      ¬∃ r ∈ db.reservations, r.room_id = p.room_id ∧
        r.start_time < p.end_time ∧ p.start_time < r.end_time) ∧
    (∀ (avail : Bool) (conflicts : List Reservation),
      checkRoomAvailability db p.room_id p.start_time p.end_time =
          .ok (avail, conflicts) →
      (avail = true ↔
        ¬∃ r ∈ db.reservations, r.room_id = p.room_id ∧
          r.start_time < p.end_time ∧ p.start_time < r.end_time) ∧
      (∀ r, r ∈ conflicts ↔ r ∈ db.reservations ∧ r.room_id = p.room_id ∧
          r.start_time < p.end_time ∧ p.start_time < r.end_time)) := by
  have hocc' : ¬ p.expected_occupants = 0 := Nat.pos_iff_ne_zero.mp hocc
  have hrange' : ¬ p.end_time ≤ p.start_time := Int.not_le.mpr hrange
  have hcap' : ¬ room.capacity < p.expected_occupants := Nat.not_lt.mpr hcap
  refine ⟨?_, ?_, ?_⟩
  · rw [← any_overlap_iff p.room_id p.start_time p.end_time db.reservations]
    simp only [createReservation, if_neg hocc', if_neg hrange', hroom, huser,
               if_neg hcap']
    by_cases hany : db.reservations.any
        (overlapsWindow p.room_id p.start_time p.end_time) = true
    · rw [if_pos hany]
      simp [hany]
    · rw [if_neg hany]
      simp [hany]
  · rw [← any_overlap_iff p.room_id p.start_time p.end_time db.reservations]
    simp only [createReservation, if_neg hocc', if_neg hrange', hroom, huser,
               if_neg hcap']
    by_cases hany : db.reservations.any
        (overlapsWindow p.room_id p.start_time p.end_time) = true
    · rw [if_pos hany]
      simp [hany, Except.isOk, Except.toBool]
    · rw [if_neg hany]
      simp [hany, Except.isOk, Except.toBool]
  · intro avail conflicts h
    unfold checkRoomAvailability at h
    rw [if_neg (Int.not_le.mpr hrange)] at h
    rw [hroom] at h
    simp only [Except.ok.injEq, Prod.mk.injEq] at h
    obtain ⟨ha, hc⟩ := h
    constructor
    · subst ha
      subst hc
      rw [← any_overlap_iff p.room_id p.start_time p.end_time db.reservations]
      constructor
      · intro hlen hany
        rw [List.any_eq_true] at hany
        obtain ⟨x, hx, hpx⟩ := hany
        have hmem : x ∈ db.reservations.filter
            (overlapsWindow p.room_id p.start_time p.end_time) :=
          List.mem_filter.mpr ⟨hx, hpx⟩
        have hnil : db.reservations.filter
            (overlapsWindow p.room_id p.start_time p.end_time) = [] := by
          simpa [List.length_eq_zero] using hlen
        rw [hnil] at hmem
        exact absurd hmem (List.not_mem_nil x)
      · intro hnone
        have hnil : db.reservations.filter
            (overlapsWindow p.room_id p.start_time p.end_time) = [] := by
          rw [List.filter_eq_nil_iff]
          intro x hx hpx
          exact hnone (List.any_eq_true.mpr ⟨x, hx, hpx⟩)
        simp [hnil]
    · intro r
      subst hc
      rw [List.mem_filter]
      simp [overlapsWindow, Bool.and_eq_true, beq_iff_eq,
            decide_eq_true_eq, and_assoc]

/-- Witness for C3: room 1 holds `[10,20)`; the request `[20,30)` touches
the endpoint, so the conflict predicate is empty, creation succeeds and the
availability query reports the room free with no conflicting rows. -/
theorem conflict_iff_overlap_witness :
    ((createReservation wDB wCreate = .error .timeConflict ↔
      ∃ r ∈ wDB.reservations, r.room_id = wCreate.room_id ∧
        r.start_time < wCreate.end_time ∧
        wCreate.start_time < r.end_time) ∧
    ((createReservation wDB wCreate).isOk = true ↔
      ¬∃ r ∈ wDB.reservations, r.room_id = wCreate.room_id ∧
        r.start_time < wCreate.end_time ∧
        wCreate.start_time < r.end_time) ∧
    (∀ (avail : Bool) (conflicts : List Reservation),
      checkRoomAvailability wDB wCreate.room_id wCreate.start_time
          wCreate.end_time = .ok (avail, conflicts) →
      (avail = true ↔
        ¬∃ r ∈ wDB.reservations, r.room_id = wCreate.room_id ∧
          r.start_time < wCreate.end_time ∧
          wCreate.start_time < r.end_time) ∧
      (∀ r, r ∈ conflicts ↔ r ∈ wDB.reservations ∧
          r.room_id = wCreate.room_id ∧
          r.start_time < wCreate.end_time ∧
          wCreate.start_time < r.end_time))) :=
  conflict_iff_overlap wDB wCreate
    { id := 1, name := "A", location := "B1", capacity := 1 }
    { id := 2, email := "u@x" } rfl rfl (by decide) (by decide) (by decide)

/-- **C4 (counterexample)** — the claim says a request with a nonexistent
room AND `start_time ≥ end_time` yields NotFound for the room. In the code
the `start_time < end_time` check lives in the Pydantic schema
(`RoomReservationCreate.end_time_must_be_after_start_time`), which FastAPI
runs *before* the handler, so the concrete request (room 99 absent,
`[5, 3)`) yields the range-validation error, not Room-NotFound. -/
theorem create_order_counterexample :
    createReservation (initDB [] [] [] 0) wBadCreate =
      .error .validationRange ∧
    Err.validationRange ≠ Err.roomNotFound := ⟨rfl, by decide⟩

/-- **C4 (amended)** — Admission precondition order as implemented: the
schema-level `start_time < end_time` check fires first (InvalidRange,
regardless of the room), then the handler checks room exists (NotFound),
user exists (NotFound), and `expected_occupants ≤ room.capacity`
(CapacityExceeded), in that order; so a request with a nonexistent room and
`start_time ≥ end_time` yields InvalidRange, not NotFound. -/
theorem create_check_order (db : DB) (p : ReservationCreate)
    (hocc : 0 < p.expected_occupants) :
    (p.end_time ≤ p.start_time →
        createReservation db p = .error .validationRange) ∧
    (p.start_time < p.end_time → findRoom db p.room_id = none →
        createReservation db p = .error .roomNotFound) ∧
    (∀ room, p.start_time < p.end_time →
        findRoom db p.room_id = some room →
        findUser db p.reserved_by = none →
        createReservation db p = .error .userNotFound) ∧
    (∀ room u, p.start_time < p.end_time →
        findRoom db p.room_id = some room →
        findUser db p.reserved_by = some u →
        room.capacity < p.expected_occupants →
        createReservation db p = .error .capacityExceeded) := by
  have hocc' : ¬ p.expected_occupants = 0 := Nat.pos_iff_ne_zero.mp hocc
  refine ⟨?_, ?_, ?_, ?_⟩
  · intro hle
    simp only [createReservation, if_neg hocc', if_pos hle]
  · intro hlt hnone
    simp only [createReservation, if_neg hocc',
               if_neg (Int.not_le.mpr hlt), hnone]
  · intro room hlt hroom hnone
    simp only [createReservation, if_neg hocc',
               if_neg (Int.not_le.mpr hlt), hroom, hnone]
  · intro room u hlt hroom huser hcap
    simp only [createReservation, if_neg hocc',
               if_neg (Int.not_le.mpr hlt), hroom, huser, if_pos hcap]

/-- Witness for the amended C4, at the counterexample's request (occupants
1 > 0): the first conjunct applies, since `3 ≤ 5`. -/
theorem create_check_order_witness :
    (wBadCreate.end_time ≤ wBadCreate.start_time →
        createReservation (initDB [] [] [] 0) wBadCreate =
          .error .validationRange) ∧
    (wBadCreate.start_time < wBadCreate.end_time →
        findRoom (initDB [] [] [] 0) wBadCreate.room_id = none →
        createReservation (initDB [] [] [] 0) wBadCreate =
          .error .roomNotFound) ∧
    (∀ room, wBadCreate.start_time < wBadCreate.end_time →
        findRoom (initDB [] [] [] 0) wBadCreate.room_id = some room →
        findUser (initDB [] [] [] 0) wBadCreate.reserved_by = none →
        createReservation (initDB [] [] [] 0) wBadCreate =
          .error .userNotFound) ∧
    (∀ room u, wBadCreate.start_time < wBadCreate.end_time →
        findRoom (initDB [] [] [] 0) wBadCreate.room_id = some room →
        findUser (initDB [] [] [] 0) wBadCreate.reserved_by = some u →
        room.capacity < wBadCreate.expected_occupants →
        createReservation (initDB [] [] [] 0) wBadCreate =
          .error .capacityExceeded) :=
  create_check_order (initDB [] [] [] 0) wBadCreate (by decide)

/-- **C5 (counterexample)** — the claim says an update that raises
`expected_occupants` above the room's capacity is rejected. `wDB` has room
1 with capacity 1 and a stored reservation with 1 occupant; the update that
sets `expected_occupants := 5` succeeds and persists 5. -/
theorem update_capacity_counterexample :
    updateReservation wDB 3 wUpd =
      .ok { wDB with
            reservations := [{ id := 3, room_id := 1, reserved_by := 2,
                               start_time := 10, end_time := 20,
                               expected_occupants := 5 }] } ∧
    (findRoom wDB 1).map Room.capacity = some 1 ∧ 1 < 5 := ⟨rfl, rfl, by decide⟩

/-- **C5 (amended)** — Update re-validation as implemented: unspecified
fields retain their previous values (`setFields` only overwrites supplied
fields); when `start_time` or `end_time` is supplied, the effective range
must satisfy `start < end` and the overlap check re-runs against the other
reservations of the same room (own id excluded); when neither time is
supplied, the update succeeds with no range, overlap or capacity check —
in particular `expected_occupants` is never re-checked against the room's
capacity. -/
theorem update_revalidation (db : DB) (rid : Nat) (p : ReservationUpdate)
    (r : Reservation) (hocc : p.expected_occupants ≠ some 0)
    (hfind : findReservation db rid = some r) :
    (p.start_time = none → p.end_time = none →
        updateReservation db rid p =
          .ok { db with reservations := updateFirst rid p db.reservations }) ∧
    ((p.start_time.isSome || p.end_time.isSome) = true →
        (updateReservation db rid p =
            .ok { db with
                  reservations := updateFirst rid p db.reservations } ↔
          p.start_time.getD r.start_time < p.end_time.getD r.end_time ∧
          ¬∃ o ∈ db.reservations, o.id ≠ rid ∧ o.room_id = r.room_id ∧
            o.start_time < p.end_time.getD r.end_time ∧
            p.start_time.getD r.start_time < o.end_time)) ∧
    (setFields r p).start_time = p.start_time.getD r.start_time ∧
    (setFields r p).end_time = p.end_time.getD r.end_time ∧
    (setFields r p).expected_occupants =
      p.expected_occupants.getD r.expected_occupants := by
  refine ⟨?_, ?_, rfl, rfl, rfl⟩
  · intro hs he
    simp only [updateReservation, if_neg hocc, hfind, hs, he,
               Option.isSome_none, Bool.or_self, Bool.false_eq_true,
               if_false]
  · intro hsome
    simp only [updateReservation, if_neg hocc, hfind, hsome, if_true]
    rw [← any_overlap_ne_iff rid r.room_id
          (p.start_time.getD r.start_time) (p.end_time.getD r.end_time)
          db.reservations]
    by_cases hrange : p.end_time.getD r.end_time ≤
        p.start_time.getD r.start_time
    · rw [if_pos hrange]
      constructor
      · intro h
        exact absurd h (fun h => Except.noConfusion h)
      · intro ⟨h1, _⟩
        exact absurd hrange (Int.not_le.mpr h1)
    · rw [if_neg hrange]
      by_cases hany : db.reservations.any
          (fun o => o.id != rid && overlapsWindow r.room_id
            (p.start_time.getD r.start_time)
            (p.end_time.getD r.end_time) o) = true
      · rw [if_pos hany]
        constructor
        · intro h
          exact absurd h (fun h => Except.noConfusion h)
        · intro ⟨_, h2⟩
          exact absurd hany h2
      · rw [if_neg hany]
        exact ⟨fun _ => ⟨Int.not_le.mp hrange, fun h => hany h⟩,
               fun _ => rfl⟩

/-- Witness for the amended C5, at the counterexample's input: the update
that only sets `expected_occupants := 5` on `wDB` succeeds unconditionally
(first conjunct), with the retention equations of `setFields`. -/
theorem update_revalidation_witness :
    (wUpd.start_time = none → wUpd.end_time = none →
        updateReservation wDB 3 wUpd =
          .ok { wDB with
                reservations := updateFirst 3 wUpd wDB.reservations }) ∧
    ((wUpd.start_time.isSome || wUpd.end_time.isSome) = true →
        (updateReservation wDB 3 wUpd =
            .ok { wDB with
                  reservations := updateFirst 3 wUpd wDB.reservations } ↔
          wUpd.start_time.getD 10 < wUpd.end_time.getD 20 ∧
          ¬∃ o ∈ wDB.reservations, o.id ≠ 3 ∧ o.room_id = 1 ∧
            o.start_time < wUpd.end_time.getD 20 ∧
            wUpd.start_time.getD 10 < o.end_time)) ∧
    (setFields { id := 3, room_id := 1, reserved_by := 2, start_time := 10,
                 end_time := 20, expected_occupants := 1 } wUpd).start_time =
      wUpd.start_time.getD 10 ∧
    (setFields { id := 3, room_id := 1, reserved_by := 2, start_time := 10,
                 end_time := 20, expected_occupants := 1 } wUpd).end_time =
      wUpd.end_time.getD 20 ∧
    (setFields { id := 3, room_id := 1, reserved_by := 2, start_time := 10,
                 end_time := 20,
                 expected_occupants := 1 } wUpd).expected_occupants =
      wUpd.expected_occupants.getD 1 :=
  update_revalidation wDB 3 wUpd
    { id := 3, room_id := 1, reserved_by := 2, start_time := 10,
      end_time := 20, expected_occupants := 1 } (by decide) rfl

/-- **C7** — the claim says `update_card_status` surfaces a structured
NotFound for an unknown card id and a structured InvalidInput for a status
outside {active, lost, disabled}. In the code the handler's `status`
parameter shadows the imported `fastapi.status` module, so both error paths
evaluate `status.HTTP_404_NOT_FOUND` / `status.HTTP_400_BAD_REQUEST` on a
`str` and raise `AttributeError`: the caller gets an unhandled 500 instead
of either structured error (`wAccessDB` has only card id 5). -/
theorem update_card_status_shadowing :
    updateCardStatus wAccessDB 99 "active" = .error .attributeError ∧
    updateCardStatus wAccessDB 5 "frozen" = .error .attributeError ∧
    Err.attributeError ≠ Err.cardNotFound ∧
    Err.attributeError ≠ Err.invalidAccessType :=
  ⟨rfl, rfl, by decide, by decide⟩

/-- Inversion of a successful `create_reservation`: all checks passed and
the new row was appended with the fresh id. -/
theorem createReservation_ok_elim {db : DB} {p : ReservationCreate}
    {db' : DB} (h : createReservation db p = .ok db') :
    ¬ p.expected_occupants = 0 ∧ ¬ p.end_time ≤ p.start_time ∧
    (∃ room, findRoom db p.room_id = some room ∧
      ¬ room.capacity < p.expected_occupants) ∧
    (∃ u, findUser db p.reserved_by = some u) ∧
    ¬ db.reservations.any
        (overlapsWindow p.room_id p.start_time p.end_time) = true ∧
    db' = { db with
            reservations := db.reservations ++
              [{ id := db.nextId, room_id := p.room_id,
                 reserved_by := p.reserved_by, start_time := p.start_time,
                 end_time := p.end_time,
                 expected_occupants := p.expected_occupants }],
            nextId := db.nextId + 1 } := by
  unfold createReservation at h
  split at h
  · exact Except.noConfusion h
  next hocc =>
  split at h
  · exact Except.noConfusion h
  next hrange =>
  split at h
  · exact Except.noConfusion h
  next room hroom =>
  split at h
  · exact Except.noConfusion h
  next u huser =>
  split at h
  · exact Except.noConfusion h
  next hcap =>
  split at h
  · exact Except.noConfusion h
  next hany =>
  cases h
  exact ⟨hocc, hrange, ⟨room, hroom, hcap⟩, ⟨u, huser⟩, hany, rfl⟩

/-- **C9** — Idempotent re-run: a payload accepted by
`create_reservation` appends exactly one row, and re-running the identical
payload is rejected as Conflict (the first row overlaps itself, since its
range is nonempty), writing nothing. -/
theorem rerun_conflict {db db' : DB} {p : ReservationCreate}
    (h : createReservation db p = .ok db') :
    createReservation db' p = .error .timeConflict ∧
    db'.reservations.length = db.reservations.length + 1 ∧
    stepRes db' (.create p) = db' := by
  obtain ⟨hocc, hrange, ⟨room, hroom, hcap⟩, ⟨u, huser⟩, hany, rfl⟩ :=
    createReservation_ok_elim h
  unfold findRoom at hroom
  unfold findUser at huser
  have hconf : createReservation
      { db with
        reservations := db.reservations ++
          [{ id := db.nextId, room_id := p.room_id,
             reserved_by := p.reserved_by, start_time := p.start_time,
             end_time := p.end_time,
             expected_occupants := p.expected_occupants }],
        nextId := db.nextId + 1 } p = .error .timeConflict := by
    simp only [createReservation, if_neg hocc, if_neg hrange, findRoom,
               findUser, hroom, huser, if_neg hcap, List.any_append,
               List.any_cons, List.any_nil, overlapsWindow, beq_self_eq_true,
               decide_eq_true (Int.not_le.mp hrange), Bool.and_self,
               Bool.true_and, Bool.and_true, Bool.or_false, Bool.or_true,
               if_true]
  exact ⟨hconf, by simp, by simp only [stepRes, hconf]⟩

/-- Witness for C9: the accepted creation of `[10, 11)` in `egDB`, re-run
with the identical payload, hits the Conflict branch and leaves the store
as it was after the first call. -/
theorem rerun_conflict_witness :
    createReservation
      { egDB with
        reservations := [{ id := 10, room_id := 1, reserved_by := 2,
                           start_time := 10, end_time := 11,
                           expected_occupants := 3 }]
        nextId := 11 }
      { room_id := 1, start_time := 10, end_time := 11,
        expected_occupants := 3, reserved_by := 2 } =
      .error .timeConflict ∧
    ({ egDB with
       reservations := [{ id := 10, room_id := 1, reserved_by := 2,
                          start_time := 10, end_time := 11,
                          expected_occupants := 3 }]
       nextId := 11 } : DB).reservations.length =
      egDB.reservations.length + 1 ∧
    stepRes
      { egDB with
        reservations := [{ id := 10, room_id := 1, reserved_by := 2,
                           start_time := 10, end_time := 11,
                           expected_occupants := 3 }]
        nextId := 11 }
      (.create { room_id := 1, start_time := 10, end_time := 11,
                 expected_occupants := 3, reserved_by := 2 }) =
      { egDB with
        reservations := [{ id := 10, room_id := 1, reserved_by := 2,
                           start_time := 10, end_time := 11,
                           expected_occupants := 3 }]
        nextId := 11 } :=
  rerun_conflict rfl

end CampusAccess
